import Mathlib

/-!
Verification of the process entry point `app/main.go`

The entry point consists of two functions, `init` and `main`.  Both are
straight-line glue code calling into libraries (viper, database/sql, echo,
log) and into the other packages of the repository.  The embedding below
keeps the control flow of the two functions statement by statement and
records every call in a trace; what the called libraries answer is supplied
by a `World`.

The parts of the Go language the two functions rely on are modelled
explicitly:

* `panic` unwinds the running function, running its deferred calls, and an
  unrecovered panic ends the process with exit status 2 after the runtime
  has written the panic value to standard error;
* `os.Exit` (reached through `log.Fatal`) ends the process at once and does
  not run deferred calls;
* a function that returns normally runs its deferred calls, last registered
  first; when `main` returns the process exits with status 0;
* `time.Duration` is a 64-bit signed integer and its multiplication wraps
  around.
-/

namespace TestServer

/-! ## External world -/

/-- Identity of a value created at run time (connection pool, server, repository, ...). -/
abbrev Handle := Nat

/-- A Go `error` value: `none` is `nil`, `some msg` an error whose `Error()` text is `msg`. -/
abbrev GoError := Option String

/-- Answers of the libraries called by `init` and `main`.

`getBool`, `getString` and `getInt` are viper's typed getters on the loaded
configuration (viper answers the zero value for an absent key).
`startResult` is the value `e.Start` returns once the listener has stopped. -/
structure World where
  readInConfig : GoError
  getBool : String → Bool
  getString : String → String
  getInt : String → Int
  sqlOpen : GoError
  ping : GoError
  close : GoError
  startResult : GoError

/-! ## Observable actions -/

/-- One entry of the execution trace: a call made by `init`, `main` or the Go runtime. -/
inductive Action where
  | setConfigFile (file : String)
  | readInConfig (file : String)
  | getBool (key : String)
  | getString (key : String)
  | getInt (key : String)
  | logPrintln (msg : String)
  | logPrint (msg : String)
  | osExit (code : Nat)
  | panicReport (msg : String)
  | sqlOpen (driver dsn : String) (conn : Handle)
  | dbPing (conn : Handle)
  | deferClose (conn : Handle)
  | dbClose (conn : Handle)
  | echoNew (e : Handle)
  | initMiddleware (middle : Handle)
  | echoUse (e middle : Handle)
  | newPostgresAuthorRepository (conn repo : Handle)
  | newPostgresArticleRepository (conn repo : Handle)
  | newArticleUsecase (ar authorRepo : Handle) (timeout : Int) (au : Handle)
  | newArticleHandler (e au : Handle)
  | echoStart (e : Handle) (address : String)
  deriving DecidableEq

/-! ## Go control flow -/

/-- A call registered with `defer`; the only one in `main` closes the connection. -/
inductive Deferred where
  | closeDb (conn : Handle)
  deriving DecidableEq

/-- Why a computation stopped before reaching its end. -/
inductive Halt where
  | panicking (value : String)
  | exited (code : Nat)
  deriving DecidableEq

/-- Mutable state of the running process. -/
structure ProcState where
  trace : List Action
  deferred : List Deferred
  nextHandle : Handle
  configFile : String
  deriving DecidableEq

/-- A computation of the process: it ends with a value or halts, and leaves a state. -/
def Proc (α : Type) : Type := ProcState → Except Halt α × ProcState

/-- Sequencing of computations; a halt skips the continuation. -/
def Proc.bind {α β : Type} (m : Proc α) (f : α → Proc β) : Proc β := fun s =>
  match m s with
  | (Except.ok a, s1) => f a s1
  | (Except.error h, s1) => (Except.error h, s1)

instance : Monad Proc where
  pure a := fun s => (Except.ok a, s)
  bind := Proc.bind

/-- Append an action to the trace. -/
def emit (a : Action) : Proc Unit := fun s =>
  (Except.ok (), { s with trace := s.trace ++ [a] })

/-- Allocate the identity of a newly created value. -/
def fresh : Proc Handle := fun s =>
  (Except.ok s.nextHandle, { s with nextHandle := s.nextHandle + 1 })

/-- Go `panic(v)`. -/
def goPanic {α : Type} (value : String) : Proc α := fun s =>
  (Except.error (Halt.panicking value), s)

/-- Go `os.Exit(code)`. -/
def osExit {α : Type} (code : Nat) : Proc α := fun s =>
  (Except.error (Halt.exited code), { s with trace := s.trace ++ [Action.osExit code] })

/-- Go `defer`: push a call on the deferred stack of the running function. -/
def goDefer (d : Deferred) : Proc Unit := fun s =>
  (Except.ok (), { s with deferred := d :: s.deferred })

/-- Text that `fmt` prints for an error value. -/
def errorText : GoError → String
  | none => "<nil>"
  | some msg => msg

/-- Go `log.Println(msg)`. -/
def logPrintln (msg : String) : Proc Unit := emit (Action.logPrintln msg)

/-- Go `log.Fatal(v)`: `Print(v)` followed by `os.Exit(1)`. -/
def logFatal {α : Type} (v : GoError) : Proc α := do
  emit (Action.logPrint (errorText v))
  osExit 1

/-! ## `fmt.Sprintf` and `time.Duration` -/

/-- Text `fmt.Sprintf` appends for operands left over after the format is used up. -/
def sprintfExtra (args : List String) : List Char :=
  "%!(EXTRA ".data ++ (", ".intercalate (args.map fun a => "string=" ++ a)).data ++ [')']

/-- Expansion of a format over string operands: `%s` takes the next operand,
`%%` is a percent sign, every other character is copied. -/
def sprintfAux : List Char → List String → List Char
  | [], [] => []
  | [], a :: args => sprintfExtra (a :: args)
  | '%' :: 's' :: rest, a :: args => a.data ++ sprintfAux rest args
  | '%' :: 's' :: rest, [] => "%!s(MISSING)".data ++ sprintfAux rest []
  | '%' :: '%' :: rest, args => '%' :: sprintfAux rest args
  | c :: rest, args => c :: sprintfAux rest args

/-- Go `fmt.Sprintf(format, args...)` for string operands and the verb `%s`. -/
def sprintf (format : String) (args : List String) : String :=
  String.mk (sprintfAux format.data args)

/-- Two's complement wrap-around of a mathematical integer into the `int64` range. -/
def wrapInt64 (x : Int) : Int := (x + 2 ^ 63) % 2 ^ 64 - 2 ^ 63

/-- Whether an integer is a value of the Go type `int` (64 bits). -/
def isGoInt (n : Int) : Prop := -(2 ^ 63) ≤ n ∧ n < 2 ^ 63

instance (n : Int) : Decidable (isGoInt n) := by unfold isGoInt; infer_instance

/-- Go `time.Second`, in nanoseconds. -/
def timeSecond : Int := 1000000000

/-- Go conversion `time.Duration(n)` of an `int`. -/
def timeDuration (n : Int) : Int := wrapInt64 n

/-- Go `*` on `time.Duration` (an `int64`). -/
def durationMul (a b : Int) : Int := wrapInt64 (a * b)

/-! ## Library calls -/

/-- The nil pointer. -/
def nilHandle : Handle := 0

/-- Go `viper.SetConfigFile(file)`. -/
def viperSetConfigFile (file : String) : Proc Unit := fun s =>
  (Except.ok (), { s with trace := s.trace ++ [Action.setConfigFile file], configFile := file })

/-- Go `viper.ReadInConfig()`: reads the file set before. -/
def viperReadInConfig (w : World) : Proc GoError := fun s =>
  (Except.ok w.readInConfig, { s with trace := s.trace ++ [Action.readInConfig s.configFile] })

/-- Go `viper.GetBool(key)`. -/
def viperGetBool (w : World) (key : String) : Proc Bool := do
  emit (Action.getBool key)
  pure (w.getBool key)

/-- Go `viper.GetString(key)`. -/
def viperGetString (w : World) (key : String) : Proc String := do
  emit (Action.getString key)
  pure (w.getString key)

/-- Go `viper.GetInt(key)`. -/
def viperGetInt (w : World) (key : String) : Proc Int := do
  emit (Action.getInt key)
  pure (w.getInt key)

/-- Go `sql.Open(driver, dsn)`: a new pool and `nil`, or the nil pointer and an error. -/
def sqlOpen (w : World) (driver dsn : String) : Proc (Handle × GoError) :=
  match w.sqlOpen with
  | some msg => do
    emit (Action.sqlOpen driver dsn nilHandle)
    pure (nilHandle, some msg)
  | none => do
    let conn ← fresh
    emit (Action.sqlOpen driver dsn conn)
    pure (conn, none)

/-- Go `dbConn.Ping()`. -/
def dbPing (w : World) (conn : Handle) : Proc GoError := do
  emit (Action.dbPing conn)
  pure w.ping

/-- Go `dbConn.Close()`. -/
def dbClose (w : World) (conn : Handle) : Proc GoError := do
  emit (Action.dbClose conn)
  pure w.close

/-- Go `echo.New()`. -/
def echoNew : Proc Handle := do
  let e ← fresh
  emit (Action.echoNew e)
  pure e

/-- Go `middleware.InitMiddleware()`. -/
def initMiddleware : Proc Handle := do
  let middle ← fresh
  emit (Action.initMiddleware middle)
  pure middle

/-- Go `e.Use(middle.CORS)`. -/
def echoUse (e middle : Handle) : Proc Unit := emit (Action.echoUse e middle)

/-- Go `postgres.NewPostgresAuthorRepository(conn)` of the author package. -/
def newPostgresAuthorRepository (conn : Handle) : Proc Handle := do
  let repo ← fresh
  emit (Action.newPostgresAuthorRepository conn repo)
  pure repo

/-- Go `postgres.NewPostgresArticleRepository(conn)` of the article package. -/
def newPostgresArticleRepository (conn : Handle) : Proc Handle := do
  let repo ← fresh
  emit (Action.newPostgresArticleRepository conn repo)
  pure repo

/-- Go `usecase.NewArticleUsecase(ar, authorRepo, timeout)`. -/
def newArticleUsecase (ar authorRepo : Handle) (timeout : Int) : Proc Handle := do
  let au ← fresh
  emit (Action.newArticleUsecase ar authorRepo timeout au)
  pure au

/-- Go `http.NewArticleHandler(e, au)`. -/
def newArticleHandler (e au : Handle) : Proc Unit := emit (Action.newArticleHandler e au)

/-- Go `e.Start(address)`: serves until the listener stops, then returns an error value. -/
def echoStart (w : World) (e : Handle) (address : String) : Proc GoError := do
  emit (Action.echoStart e address)
  pure w.startResult

/-! ## The program -/

/-- Format of the connection string in `main`. -/
def dsnFormat : String :=
  "host=%s port=%s user=%s password=%s dbname=%s sslmode=disable"

/-- The `dsn` computed in `main` from the five configured values. -/
def dsn (dbHost dbPort dbUser dbPass dbName : String) : String :=
  sprintf dsnFormat [dbHost, dbPort, dbUser, dbPass, dbName]

/-- The `timeoutContext` computed in `main` from the configured integer. -/
def timeoutContext (n : Int) : Int := durationMul (timeDuration n) timeSecond

/-- Go function `init` of package `main`. -/
def init (w : World) : Proc Unit := do
  viperSetConfigFile "config.json"
  let err ← viperReadInConfig w
  if err.isSome then
    goPanic (errorText err)
  if (← viperGetBool w "debug") then
    logPrintln "Service RUN on DEBUG mode"

/-- The function literal deferred in `main`. -/
def runDeferred (w : World) : Deferred → Proc Unit
  | Deferred.closeDb conn => do
    let err ← dbClose w conn
    if err.isSome then
      logFatal err

/-- Go function `main` of package `main`. -/
def main (w : World) : Proc Unit := do
  let dbHost ← viperGetString w "database.host"
  let dbPort ← viperGetString w "database.port"
  let dbUser ← viperGetString w "database.user"
  let dbPass ← viperGetString w "database.pass"
  let dbName ← viperGetString w "database.name"
  let (dbConn, err) ← sqlOpen w "postgres" (dsn dbHost dbPort dbUser dbPass dbName)
  if err.isSome then
    logFatal err
  let err ← dbPing w dbConn
  if err.isSome then
    logFatal err
  goDefer (Deferred.closeDb dbConn)
  emit (Action.deferClose dbConn)
  let e ← echoNew
  let middle ← initMiddleware
  echoUse e middle
  let authorRepo ← newPostgresAuthorRepository dbConn
  let ar ← newPostgresArticleRepository dbConn
  let n ← viperGetInt w "context.timeout"
  let au ← newArticleUsecase ar authorRepo (timeoutContext n)
  newArticleHandler e au
  let address ← viperGetString w "server.address"
  let err ← echoStart w e address
  logFatal err

/-! ## The Go runtime -/

/-- Run the deferred calls of a function that is returning (`pending` is `ok`)
or panicking.  A deferred call that panics replaces the pending panic and the
remaining deferred calls still run; a deferred call that exits the process
stops everything. -/
def unwind (w : World) :
    List Deferred → Except Halt Unit → ProcState → Except Halt Unit × ProcState
  | [], pending, s => (pending, s)
  | d :: ds, pending, s =>
    match runDeferred w d s with
    | (Except.ok (), s1) => unwind w ds pending s1
    | (Except.error (Halt.panicking v), s1) => unwind w ds (Except.error (Halt.panicking v)) s1
    | (Except.error (Halt.exited c), s1) => (Except.error (Halt.exited c), s1)

/-- Call of a Go function: the body runs with an empty deferred stack; when it
returns or panics its deferred calls are run, when it exits the process they
are not. -/
def goCall (w : World) (body : Proc Unit) : Proc Unit := fun s =>
  match body { s with deferred := [] } with
  | (Except.error (Halt.exited c), s1) => (Except.error (Halt.exited c), s1)
  | (r, s1) =>
    match unwind w s1.deferred r { s1 with deferred := [] } with
    | (r2, s2) => (r2, { s2 with deferred := s.deferred })

/-- How the process ended. -/
inductive Termination where
  | mainReturned
  | unrecoveredPanic (value : String)
  | exitCalled (code : Nat)
  deriving DecidableEq

/-- Exit status of the process. -/
def Termination.exitStatus : Termination → Nat
  | Termination.mainReturned => 0
  | Termination.unrecoveredPanic _ => 2
  | Termination.exitCalled code => code

/-- What an execution of the program leaves behind. -/
structure Outcome where
  trace : List Action
  termination : Termination
  deriving DecidableEq

/-- State of the process when the runtime hands control to package `main`. -/
def initialState : ProcState :=
  { trace := [], deferred := [], nextHandle := 1, configFile := "" }

/-- Execution of the program: the runtime calls `init`, then `main`; an
unrecovered panic is reported on standard error. -/
def runProcess (w : World) : Outcome :=
  match (do goCall w (init w); goCall w (main w) : Proc Unit) initialState with
  | (Except.ok (), s) => { trace := s.trace, termination := Termination.mainReturned }
  | (Except.error (Halt.panicking v), s) =>
    { trace := s.trace ++ [Action.panicReport v], termination := Termination.unrecoveredPanic v }
  | (Except.error (Halt.exited c), s) =>
    { trace := s.trace, termination := Termination.exitCalled c }

end TestServer

namespace TestServer

/-! ## Expected traces -/

/-- Actions of `init` once the configuration has been read. -/
def initActions (w : World) : List Action :=
  [Action.setConfigFile "config.json", Action.readInConfig "config.json", Action.getBool "debug"]
    ++ (if w.getBool "debug" then [Action.logPrintln "Service RUN on DEBUG mode"] else [])

/-- The connection string `main` builds in world `w`. -/
def dsnOf (w : World) : String :=
  dsn (w.getString "database.host") (w.getString "database.port") (w.getString "database.user")
    (w.getString "database.pass") (w.getString "database.name")

/-- Actions of `main` up to and including `sql.Open`, which returns `conn`. -/
def openActions (w : World) (conn : Handle) : List Action :=
  [Action.getString "database.host", Action.getString "database.port",
   Action.getString "database.user", Action.getString "database.pass",
   Action.getString "database.name", Action.sqlOpen "postgres" (dsnOf w) conn]

/-- Actions of `main` after a successful ping, up to and including `e.Start`. -/
def wiringActions (w : World) : List Action :=
  [Action.deferClose 1, Action.echoNew 2, Action.initMiddleware 3, Action.echoUse 2 3,
   Action.newPostgresAuthorRepository 1 4, Action.newPostgresArticleRepository 1 5,
   Action.getInt "context.timeout",
   Action.newArticleUsecase 5 4 (timeoutContext (w.getInt "context.timeout")) 6,
   Action.newArticleHandler 2 6, Action.getString "server.address",
   Action.echoStart 2 (w.getString "server.address")]

/-! ## Observations on an execution -/

/-- Messages written through the `log` package. -/
def logLine : Action → Option String
  | Action.logPrintln msg => some msg
  | Action.logPrint msg => some msg
  | _ => none

/-- Trace of the call of `init` alone. -/
def initTrace (w : World) : List Action := (goCall w (init w) initialState).2.trace

/-- The ten startup steps. -/
inductive Step where
  | readConfig
  | openDatabase
  | pingDatabase
  | createServer
  | registerCORS
  | constructAuthorRepo
  | constructArticleRepo
  | constructUsecase
  | registerHandler
  | startListener
  deriving DecidableEq

/-- The startup step an action performs, if any. -/
def stepOf : Action → Option Step
  | Action.readInConfig _ => some Step.readConfig
  | Action.sqlOpen _ _ _ => some Step.openDatabase
  | Action.dbPing _ => some Step.pingDatabase
  | Action.echoNew _ => some Step.createServer
  | Action.echoUse _ _ => some Step.registerCORS
  | Action.newPostgresAuthorRepository _ _ => some Step.constructAuthorRepo
  | Action.newPostgresArticleRepository _ _ => some Step.constructArticleRepo
  | Action.newArticleUsecase _ _ _ _ => some Step.constructUsecase
  | Action.newArticleHandler _ _ => some Step.registerHandler
  | Action.echoStart _ _ => some Step.startListener
  | _ => none

/-- The startup steps of an execution, in the order performed. -/
def startupSteps (o : Outcome) : List Step := o.trace.filterMap stepOf

/-- The fixed order of the startup steps. -/
def fixedOrder : List Step :=
  [Step.readConfig, Step.openDatabase, Step.pingDatabase, Step.createServer, Step.registerCORS,
   Step.constructAuthorRepo, Step.constructArticleRepo, Step.constructUsecase,
   Step.registerHandler, Step.startListener]

/-- Whether a step fails in world `w`; only four steps can. -/
def stepFails (w : World) : Step → Bool
  | Step.readConfig => w.readInConfig.isSome
  | Step.openDatabase => w.sqlOpen.isSome
  | Step.pingDatabase => w.ping.isSome
  | Step.startListener => w.startResult.isSome
  | _ => false

/-- Initial segment of a list ending at the first element that fails. -/
def untilFirstFailure {α : Type} (fails : α → Bool) : List α → List α
  | [] => []
  | x :: xs => if fails x then [x] else x :: untilFirstFailure fails xs

/-- Value an action creates. -/
def created : Action → Option Handle
  | Action.sqlOpen _ _ conn => some conn
  | Action.echoNew e => some e
  | Action.initMiddleware middle => some middle
  | Action.newPostgresAuthorRepository _ repo => some repo
  | Action.newPostgresArticleRepository _ repo => some repo
  | Action.newArticleUsecase _ _ _ au => some au
  | _ => none

/-- Values an action is given. -/
def used : Action → List Handle
  | Action.dbPing conn => [conn]
  | Action.deferClose conn => [conn]
  | Action.dbClose conn => [conn]
  | Action.echoUse e middle => [e, middle]
  | Action.newPostgresAuthorRepository conn _ => [conn]
  | Action.newPostgresArticleRepository conn _ => [conn]
  | Action.newArticleUsecase ar authorRepo _ _ => [ar, authorRepo]
  | Action.newArticleHandler e au => [e, au]
  | Action.echoStart e _ => [e]
  | _ => []

/-- Every action is given only values created by earlier actions. -/
def dependencyOrdered : List Handle → List Action → Bool
  | _, [] => true
  | known, a :: rest =>
    (used a).all (fun h => decide (h ∈ known)) &&
      dependencyOrdered ((created a).toList ++ known) rest

/-- Actions that only report the end of the process. -/
def isReport : Action → Bool
  | Action.logPrint _ => true
  | Action.osExit _ => true
  | Action.panicReport _ => true
  | _ => false

/-- Whether an action is a startup step that failed in world `w`. -/
def actionFailed (w : World) (a : Action) : Bool :=
  match stepOf a with
  | some st => stepFails w st
  | none => false

/-- After a failed step nothing happens but the report of the failure. -/
def nothingAfterFailure (w : World) : List Action → Bool
  | [] => true
  | a :: rest => if actionFailed w a then rest.all isReport else nothingAfterFailure w rest

/-- Type at which a configuration key is read. -/
inductive ConfigType where
  | bool
  | string
  | int
  deriving DecidableEq

/-- The configuration read an action performs, if any. -/
def configRead : Action → Option (String × ConfigType)
  | Action.getBool key => some (key, ConfigType.bool)
  | Action.getString key => some (key, ConfigType.string)
  | Action.getInt key => some (key, ConfigType.int)
  | _ => none

/-- The configuration reads of an execution, in order. -/
def configReads (o : Outcome) : List (String × ConfigType) := o.trace.filterMap configRead

/-- The eight recognized keys with the type each is read at, in reading order. -/
def recognizedKeys : List (String × ConfigType) :=
  [("debug", ConfigType.bool), ("database.host", ConfigType.string),
   ("database.port", ConfigType.string), ("database.user", ConfigType.string),
   ("database.pass", ConfigType.string), ("database.name", ConfigType.string),
   ("context.timeout", ConfigType.int), ("server.address", ConfigType.string)]

/-- The connection string given to `sql.Open`. -/
def openedDsn : Action → Option String
  | Action.sqlOpen _ dsn _ => some dsn
  | _ => none

/-- The timeout given to `NewArticleUsecase`. -/
def usecaseTimeout : Action → Option Int
  | Action.newArticleUsecase _ _ timeout _ => some timeout
  | _ => none

/-- The address given to `e.Start`. -/
def startAddress : Action → Option String
  | Action.echoStart _ address => some address
  | _ => none

/-- Registrations of the CORS middleware. -/
def isEchoUse : Action → Bool
  | Action.echoUse _ _ => true
  | _ => false

/-- Creations of an HTTP server. -/
def isEchoNew : Action → Bool
  | Action.echoNew _ => true
  | _ => false

/-- Invocations of `dbConn.Close`. -/
def isDbClose : Action → Bool
  | Action.dbClose _ => true
  | _ => false

/-- The message `init` logs in debug mode. -/
def debugMessage : String := "Service RUN on DEBUG mode"

/-- Go `strings.Split(s, " ")`. -/
def splitOnSpace (s : String) : List String := (s.data.splitOn ' ').map String.mk

/-- A function body that registers the deferred close and then returns normally. -/
def deferThenReturn (conn : Handle) : Proc Unit := goDefer (Deferred.closeDb conn)

/-- A world in which every startup step succeeds and the listener later stops. -/
def sampleWorld : World :=
  { readInConfig := none
    getBool := fun _ => true
    getString := fun key =>
      if key = "database.host" then "localhost"
      else if key = "database.port" then "5432"
      else if key = "database.user" then "user"
      else if key = "database.pass" then "secret"
      else if key = "database.name" then "article"
      else if key = "server.address" then ":9090"
      else ""
    getInt := fun _ => 2
    sqlOpen := none
    ping := none
    close := none
    startResult := some "http: Server closed" }

/-- The sample world with a configuration file that cannot be read. -/
def unreadableWorld : World :=
  { sampleWorld with readInConfig := some "open config.json: no such file or directory" }

/-- The sample world with a database that refuses the connection. -/
def unreachableWorld : World :=
  { sampleWorld with ping := some "dial tcp 127.0.0.1:5432: connect: connection refused" }

/-- The sample world with a timeout too large for a duration in nanoseconds. -/
def hugeTimeoutWorld : World :=
  { sampleWorld with getInt := fun _ => 9223372037 }

/-! ## Traces of the four kinds of run -/

theorem runProcess_readFail (w : World) (msg : String) (h : w.readInConfig = some msg) :
    runProcess w =
      { trace := [Action.setConfigFile "config.json", Action.readInConfig "config.json",
                  Action.panicReport msg],
        termination := Termination.unrecoveredPanic msg } := by
  obtain ⟨r, gb, gs, gi, o, p, c, st⟩ := w
  simp only at h
  subst h
  rfl

theorem runProcess_openFail (w : World) (msg : String) (h1 : w.readInConfig = none)
    (h2 : w.sqlOpen = some msg) :
    runProcess w =
      { trace := initActions w ++ openActions w nilHandle
                  ++ [Action.logPrint msg, Action.osExit 1],
        termination := Termination.exitCalled 1 } := by
  obtain ⟨r, gb, gs, gi, o, p, c, st⟩ := w
  simp only at h1 h2
  subst h1 h2
  cases hb : gb "debug" <;>
    simp [runProcess, goCall, init, main, Bind.bind, Proc.bind, viperSetConfigFile,
      viperReadInConfig, viperGetBool, viperGetString, emit, logPrintln, logFatal, osExit,
      sqlOpen, unwind, initialState, hb, initActions, openActions, dsnOf, errorText, goPanic,
      Pure.pure, nilHandle]

theorem runProcess_pingFail (w : World) (msg : String) (h1 : w.readInConfig = none)
    (h2 : w.sqlOpen = none) (h3 : w.ping = some msg) :
    runProcess w =
      { trace := initActions w ++ openActions w 1
                  ++ [Action.dbPing 1, Action.logPrint msg, Action.osExit 1],
        termination := Termination.exitCalled 1 } := by
  obtain ⟨r, gb, gs, gi, o, p, c, st⟩ := w
  simp only at h1 h2 h3
  subst h1 h2 h3
  cases hb : gb "debug" <;>
    simp [runProcess, goCall, init, main, Bind.bind, Proc.bind, viperSetConfigFile,
      viperReadInConfig, viperGetBool, viperGetString, emit, logPrintln, logFatal, osExit,
      sqlOpen, dbPing, fresh, unwind, initialState, hb, initActions, openActions, dsnOf,
      errorText, goPanic, Pure.pure]

theorem runProcess_started (w : World) (h1 : w.readInConfig = none)
    (h2 : w.sqlOpen = none) (h3 : w.ping = none) :
    runProcess w =
      { trace := initActions w ++ openActions w 1 ++ [Action.dbPing 1] ++ wiringActions w
                  ++ [Action.logPrint (errorText w.startResult), Action.osExit 1],
        termination := Termination.exitCalled 1 } := by
  obtain ⟨r, gb, gs, gi, o, p, c, st⟩ := w
  simp only at h1 h2 h3
  subst h1 h2 h3
  cases hb : gb "debug" <;>
    simp [runProcess, goCall, init, main, Bind.bind, Proc.bind, viperSetConfigFile,
      viperReadInConfig, viperGetBool, viperGetString, viperGetInt, emit, logPrintln, logFatal,
      osExit, sqlOpen, dbPing, fresh, unwind, initialState, hb, initActions, openActions,
      wiringActions, dsnOf, errorText, goPanic, Pure.pure, goDefer, echoNew, initMiddleware,
      echoUse, newPostgresAuthorRepository, newPostgresArticleRepository, newArticleUsecase,
      newArticleHandler, echoStart]

/-- Every run is of one of the four kinds. -/
theorem runProcess_cases (w : World) :
    (∃ msg, w.readInConfig = some msg) ∨
    (w.readInConfig = none ∧ ∃ msg, w.sqlOpen = some msg) ∨
    (w.readInConfig = none ∧ w.sqlOpen = none ∧ ∃ msg, w.ping = some msg) ∨
    (w.readInConfig = none ∧ w.sqlOpen = none ∧ w.ping = none) := by
  cases h1 : w.readInConfig with
  | some m => exact Or.inl ⟨m, rfl⟩
  | none =>
    cases h2 : w.sqlOpen with
    | some m => exact Or.inr (Or.inl ⟨rfl, m, rfl⟩)
    | none =>
      cases h3 : w.ping with
      | some m => exact Or.inr (Or.inr (Or.inl ⟨rfl, rfl, m, rfl⟩))
      | none => exact Or.inr (Or.inr (Or.inr ⟨rfl, rfl, rfl⟩))

/-! ## Fatal startup errors -/

/-- C1 (fails as stated): when `config.json` cannot be read the process ends
with exit status 2 through the `panic` of `init`, and no message at all is
passed to the logger; so "non-zero exit status and a logged message" does not
hold in this run. -/
theorem unreadable_config_logs_nothing :
    unreadableWorld.readInConfig = some "open config.json: no such file or directory" ∧
      (runProcess unreadableWorld).termination
        = Termination.unrecoveredPanic "open config.json: no such file or directory" ∧
      (runProcess unreadableWorld).trace.filterMap logLine = [] ∧
      ¬ ((runProcess unreadableWorld).termination.exitStatus ≠ 0 ∧
          ∃ m, m ∈ (runProcess unreadableWorld).trace.filterMap logLine) := by
  refine ⟨rfl, by decide, by decide, ?_⟩
  rintro ⟨_, m, hm⟩
  have hnone : (runProcess unreadableWorld).trace.filterMap logLine = [] := by decide
  rw [hnone] at hm
  cases hm

/-- C1 (amended): when a fatal startup error occurs the process ends with a
non-zero exit status.  If the error comes from `sql.Open`, `dbConn.Ping` or
`e.Start`, `main` passes it to `log.Fatal`: the exit status is 1, the error's
message is the last message passed to the logger and the run ends with that
call.  If `config.json` cannot be read, `init` panics with the error: the
exit status is 2, the panic value is the error, and nothing is passed to the
logger. -/
theorem fatal_startup_error_exits_nonzero (w : World) (msg : String)
    (h : w.readInConfig = some msg ∨
      (w.readInConfig = none ∧ w.sqlOpen = some msg) ∨
      (w.readInConfig = none ∧ w.sqlOpen = none ∧ w.ping = some msg) ∨
      (w.readInConfig = none ∧ w.sqlOpen = none ∧ w.ping = none ∧
        w.startResult = some msg)) :
    (runProcess w).termination.exitStatus ≠ 0 ∧
      (w.readInConfig = none →
        (runProcess w).termination = Termination.exitCalled 1 ∧
        ((runProcess w).trace.filterMap logLine).getLast? = some msg ∧
        ∃ pre, (runProcess w).trace = pre ++ [Action.logPrint msg, Action.osExit 1]) ∧
      (w.readInConfig = some msg →
        (runProcess w).termination = Termination.unrecoveredPanic msg ∧
        (runProcess w).termination.exitStatus = 2 ∧
        (runProcess w).trace.filterMap logLine = []) := by
  rcases h with h | ⟨h1, h2⟩ | ⟨h1, h2, h3⟩ | ⟨h1, h2, h3, h4⟩
  · rw [runProcess_readFail w msg h]
    refine ⟨by simp [Termination.exitStatus], ?_, ?_⟩
    · intro hnone
      rw [hnone] at h
      cases h
    · intro _
      simp [Termination.exitStatus, logLine]
  · rw [runProcess_openFail w msg h1 h2]
    refine ⟨by simp [Termination.exitStatus], ?_, ?_⟩
    · intro _
      exact ⟨rfl, by simp [List.filterMap_append, logLine], _, rfl⟩
    · intro hsome
      rw [h1] at hsome
      cases hsome
  · rw [runProcess_pingFail w msg h1 h2 h3]
    refine ⟨by simp [Termination.exitStatus], ?_, ?_⟩
    · intro _
      refine ⟨rfl, by simp [List.filterMap_append, logLine],
        initActions w ++ openActions w 1 ++ [Action.dbPing 1], ?_⟩
      simp
    · intro hsome
      rw [h1] at hsome
      cases hsome
  · rw [runProcess_started w h1 h2 h3, h4]
    refine ⟨by simp [Termination.exitStatus], ?_, ?_⟩
    · intro _
      exact ⟨rfl, by simp [List.filterMap_append, logLine, errorText], _, rfl⟩
    · intro hsome
      rw [h1] at hsome
      cases hsome

theorem fatal_startup_error_exits_nonzero_witness :
    unreachableWorld.readInConfig = none ∧ unreachableWorld.sqlOpen = none ∧
      unreachableWorld.ping = some "dial tcp 127.0.0.1:5432: connect: connection refused" ∧
      (runProcess unreachableWorld).termination.exitStatus ≠ 0 ∧
      (runProcess unreachableWorld).termination = Termination.exitCalled 1 ∧
      ((runProcess unreachableWorld).trace.filterMap logLine).getLast?
        = some "dial tcp 127.0.0.1:5432: connect: connection refused" :=
  ⟨rfl, rfl, rfl,
    (fatal_startup_error_exits_nonzero unreachableWorld
      "dial tcp 127.0.0.1:5432: connect: connection refused"
      (Or.inr (Or.inr (Or.inl ⟨rfl, rfl, rfl⟩)))).1,
    ((fatal_startup_error_exits_nonzero unreachableWorld
      "dial tcp 127.0.0.1:5432: connect: connection refused"
      (Or.inr (Or.inr (Or.inl ⟨rfl, rfl, rfl⟩)))).2.1 rfl).1,
    ((fatal_startup_error_exits_nonzero unreachableWorld
      "dial tcp 127.0.0.1:5432: connect: connection refused"
      (Or.inr (Or.inr (Or.inl ⟨rfl, rfl, rfl⟩)))).2.1 rfl).2.1⟩

/-! ## Order of the startup steps -/

/-- C2: whatever the outcomes of the four fallible steps, the startup steps
performed are the initial segment of the fixed order that ends at the first
failing step; every action is given only values created before it; the
usecase is built from the article repository, the author repository and the
timeout, and the handler is registered with the server and the usecase; after
a failed step nothing happens but the report of the failure. -/
theorem startup_steps_follow_fixed_order (w : World) :
    startupSteps (runProcess w) = untilFirstFailure (stepFails w) fixedOrder ∧
      dependencyOrdered [] (runProcess w).trace = true ∧
      nothingAfterFailure w (runProcess w).trace = true ∧
      (∀ ar authorRepo timeout au,
        Action.newArticleUsecase ar authorRepo timeout au ∈ (runProcess w).trace →
          (∃ conn, Action.newPostgresArticleRepository conn ar ∈ (runProcess w).trace) ∧
          (∃ conn, Action.newPostgresAuthorRepository conn authorRepo ∈ (runProcess w).trace) ∧
          timeout = timeoutContext (w.getInt "context.timeout")) ∧
      (∀ e au, Action.newArticleHandler e au ∈ (runProcess w).trace →
          Action.echoNew e ∈ (runProcess w).trace ∧
          ∃ ar authorRepo timeout,
            Action.newArticleUsecase ar authorRepo timeout au ∈ (runProcess w).trace) := by
  rcases runProcess_cases w with ⟨m, h⟩ | ⟨h1, m, h2⟩ | ⟨h1, h2, m, h3⟩ | ⟨h1, h2, h3⟩
  · rw [runProcess_readFail w m h]
    simp [startupSteps, stepOf, untilFirstFailure, stepFails, fixedOrder, h, dependencyOrdered,
      used, created, nothingAfterFailure, actionFailed, isReport]
  · rw [runProcess_openFail w m h1 h2]
    cases hb : w.getBool "debug" <;>
      simp [startupSteps, stepOf, untilFirstFailure, stepFails, fixedOrder, h1, h2,
        dependencyOrdered, used, created, nothingAfterFailure, actionFailed, isReport,
        initActions, openActions, hb]
  · rw [runProcess_pingFail w m h1 h2 h3]
    cases hb : w.getBool "debug" <;>
      simp [startupSteps, stepOf, untilFirstFailure, stepFails, fixedOrder, h1, h2, h3,
        dependencyOrdered, used, created, nothingAfterFailure, actionFailed, isReport,
        initActions, openActions, hb]
  · rw [runProcess_started w h1 h2 h3]
    cases hb : w.getBool "debug" <;> cases hs : w.startResult <;>
      simp [startupSteps, stepOf, untilFirstFailure, stepFails, fixedOrder, h1, h2, h3,
        dependencyOrdered, used, created, nothingAfterFailure, actionFailed, isReport,
        initActions, openActions, wiringActions, hb, hs] <;>
      intro ar authorRepo timeout au har hauthor htimeout _ <;>
      exact ⟨har, hauthor, htimeout⟩

theorem startup_steps_follow_fixed_order_witness :
    (∃ conn, Action.newPostgresArticleRepository conn 5 ∈ (runProcess sampleWorld).trace) ∧
      (∃ conn, Action.newPostgresAuthorRepository conn 4 ∈ (runProcess sampleWorld).trace) ∧
      (2000000000 : Int) = timeoutContext (sampleWorld.getInt "context.timeout") :=
  (startup_steps_follow_fixed_order sampleWorld).2.2.2.1 5 4 2000000000 6 (by decide)

/-! ## Termination -/

/-- C9: `main` never returns normally.  Every execution ends in an unrecovered
panic or in the `os.Exit(1)` of `log.Fatal`, also when every startup step
succeeds and the listener later stops, so the exit status is never 0. -/
theorem main_never_returns_normally (w : World) :
    (runProcess w).termination ≠ Termination.mainReturned ∧
      (runProcess w).termination.exitStatus ≠ 0 ∧
      ((∃ v pre, (runProcess w).termination = Termination.unrecoveredPanic v ∧
          (runProcess w).trace = pre ++ [Action.panicReport v]) ∨
        (∃ m pre, (runProcess w).termination = Termination.exitCalled 1 ∧
          (runProcess w).trace = pre ++ [Action.logPrint m, Action.osExit 1])) := by
  rcases runProcess_cases w with ⟨m, h⟩ | ⟨h1, m, h2⟩ | ⟨h1, h2, m, h3⟩ | ⟨h1, h2, h3⟩
  · rw [runProcess_readFail w m h]
    exact ⟨by simp, by simp [Termination.exitStatus], Or.inl
      ⟨m, [Action.setConfigFile "config.json", Action.readInConfig "config.json"], rfl, rfl⟩⟩
  · rw [runProcess_openFail w m h1 h2]
    exact ⟨by simp, by simp [Termination.exitStatus], Or.inr ⟨m, _, rfl, rfl⟩⟩
  · rw [runProcess_pingFail w m h1 h2 h3]
    refine ⟨by simp, by simp [Termination.exitStatus], Or.inr
      ⟨m, initActions w ++ openActions w 1 ++ [Action.dbPing 1], rfl, ?_⟩⟩
    simp
  · rw [runProcess_started w h1 h2 h3]
    exact ⟨by simp, by simp [Termination.exitStatus], Or.inr ⟨_, _, rfl, rfl⟩⟩

/-! ## Debug logging -/

/-- C8: the message "Service RUN on DEBUG mode" is logged exactly once if the
configuration was read and its debug value is true, and not at all otherwise;
it is logged during `init`, and it is all that `init` writes through the
logger, so with debug false or absent `init` logs nothing. -/
theorem debug_toggles_startup_logging (w : World) :
    (runProcess w).trace.count (Action.logPrintln debugMessage)
        = (if w.readInConfig = none ∧ w.getBool "debug" = true then 1 else 0) ∧
      (initTrace w).count (Action.logPrintln debugMessage)
        = (if w.readInConfig = none ∧ w.getBool "debug" = true then 1 else 0) ∧
      (initTrace w).filterMap logLine
        = (if w.readInConfig = none ∧ w.getBool "debug" = true then [debugMessage] else []) := by
  have hinit : initTrace w =
      match w.readInConfig with
      | some _ => [Action.setConfigFile "config.json", Action.readInConfig "config.json"]
      | none => initActions w := by
    obtain ⟨r, gb, gs, gi, o, p, c, st⟩ := w
    cases r <;> cases hb : gb "debug" <;>
      simp [initTrace, goCall, init, Bind.bind, Proc.bind, viperSetConfigFile,
        viperReadInConfig, viperGetBool, emit, logPrintln, unwind, initialState, hb,
        initActions, errorText, goPanic, Pure.pure]
  rw [hinit]
  rcases runProcess_cases w with ⟨m, h⟩ | ⟨h1, m, h2⟩ | ⟨h1, h2, m, h3⟩ | ⟨h1, h2, h3⟩
  · rw [runProcess_readFail w m h, h]
    simp [logLine, debugMessage]
  · rw [runProcess_openFail w m h1 h2, h1]
    cases hb : w.getBool "debug" <;>
      simp [initActions, openActions, hb, logLine, debugMessage]
  · rw [runProcess_pingFail w m h1 h2 h3, h1]
    cases hb : w.getBool "debug" <;>
      simp [initActions, openActions, hb, logLine, debugMessage]
  · rw [runProcess_started w h1 h2 h3, h1]
    cases hb : w.getBool "debug" <;>
      simp [initActions, openActions, wiringActions, hb, logLine, debugMessage]

/-! ## The deferred close -/

/-- In no execution is `dbConn.Close` invoked: every path of `main` past the
`defer` statement ends in `log.Fatal`, and `os.Exit` skips deferred calls. -/
theorem close_never_invoked (w : World) : (runProcess w).trace.filter isDbClose = [] := by
  rcases runProcess_cases w with ⟨m, h⟩ | ⟨h1, m, h2⟩ | ⟨h1, h2, m, h3⟩ | ⟨h1, h2, h3⟩
  · rw [runProcess_readFail w m h]
    simp [isDbClose]
  · rw [runProcess_openFail w m h1 h2]
    cases hb : w.getBool "debug" <;> simp [initActions, openActions, hb, isDbClose]
  · rw [runProcess_pingFail w m h1 h2 h3]
    cases hb : w.getBool "debug" <;> simp [initActions, openActions, hb, isDbClose]
  · rw [runProcess_started w h1 h2 h3]
    cases hb : w.getBool "debug" <;>
      simp [initActions, openActions, wiringActions, hb, isDbClose]

/-- A function that registers the deferred close and returns normally does
invoke `dbConn.Close`: the deferred call is skipped in `main` only because of
how `main` ends. -/
theorem deferred_close_runs_on_return (w : World) (conn : Handle) :
    (goCall w (deferThenReturn conn) initialState).2.trace.filter isDbClose
      = [Action.dbClose conn] := by
  cases hc : w.close <;>
    simp [goCall, deferThenReturn, goDefer, unwind, runDeferred, dbClose, emit, Bind.bind,
      Proc.bind, Pure.pure, initialState, hc, logFatal, osExit, isDbClose, errorText]

/-- C3 (fails on the code): in the run where the configuration is read, the
pool is opened, the ping succeeds and the listener later stops, the close is
registered with `defer` but `dbConn.Close` is not invoked before the process
ends with `os.Exit(1)`. -/
theorem close_skipped_at_shutdown :
    sampleWorld.readInConfig = none ∧ sampleWorld.sqlOpen = none ∧ sampleWorld.ping = none ∧
      Action.deferClose 1 ∈ (runProcess sampleWorld).trace ∧
      (runProcess sampleWorld).trace.filter isDbClose = [] ∧
      (runProcess sampleWorld).trace.getLast? = some (Action.osExit 1) ∧
      (runProcess sampleWorld).termination = Termination.exitCalled 1 := by
  decide

/-! ## The request timeout -/

/-- On values of the Go type `int`, the duration computed by `main` is `n`
seconds exactly when the product fits in an `int64`. -/
theorem timeoutContext_eq_iff (n : Int) (h : isGoInt n) :
    timeoutContext n = n * 1000000000 ↔ -9223372036 ≤ n ∧ n ≤ 9223372036 := by
  unfold isGoInt at h
  unfold timeoutContext durationMul timeDuration timeSecond wrapInt64
  norm_num at h ⊢
  omega

/-- Every timeout handed to `NewArticleUsecase` is the one computed from the
configured integer, and a run that passes the ping hands over exactly one. -/
theorem usecase_timeouts (w : World) :
    (∀ t ∈ (runProcess w).trace.filterMap usecaseTimeout,
        t = timeoutContext (w.getInt "context.timeout")) ∧
      (w.readInConfig = none → w.sqlOpen = none → w.ping = none →
        (runProcess w).trace.filterMap usecaseTimeout
          = [timeoutContext (w.getInt "context.timeout")]) := by
  rcases runProcess_cases w with ⟨m, h⟩ | ⟨h1, m, h2⟩ | ⟨h1, h2, m, h3⟩ | ⟨h1, h2, h3⟩
  · rw [runProcess_readFail w m h]
    simp [usecaseTimeout, h]
  · rw [runProcess_openFail w m h1 h2]
    cases hb : w.getBool "debug" <;>
      simp [initActions, openActions, hb, usecaseTimeout, h2]
  · rw [runProcess_pingFail w m h1 h2 h3]
    cases hb : w.getBool "debug" <;>
      simp [initActions, openActions, hb, usecaseTimeout, h3]
  · rw [runProcess_started w h1 h2 h3]
    cases hb : w.getBool "debug" <;>
      simp [initActions, openActions, wiringActions, hb, usecaseTimeout]

/-- C4 (fails as stated): 9223372037 is a Go `int`, and with it under
`context.timeout` the duration handed to `NewArticleUsecase` is
-9223372036709551616 ns, not 9223372037 * 1000000000 ns. -/
theorem timeout_wraps_for_large_values :
    isGoInt 9223372037 ∧
      hugeTimeoutWorld.getInt "context.timeout" = 9223372037 ∧
      (runProcess hugeTimeoutWorld).trace.filterMap usecaseTimeout = [-9223372036709551616] ∧
      (runProcess hugeTimeoutWorld).trace.filterMap usecaseTimeout
        ≠ [9223372037 * 1000000000] := by
  decide

/-- C4 (amended): for every integer `n` under `context.timeout` with
-9223372036 ≤ n ≤ 9223372036, every timeout handed to `NewArticleUsecase` is
`n * 1000000000` ns, and a run that passes the ping hands over exactly that
one; for `n = 2` it is 2000000000 ns. -/
theorem timeout_is_n_seconds (w : World) (n : Int) (hn : w.getInt "context.timeout" = n)
    (hlo : -9223372036 ≤ n) (hhi : n ≤ 9223372036) :
    (∀ t ∈ (runProcess w).trace.filterMap usecaseTimeout, t = n * 1000000000) ∧
      (w.readInConfig = none → w.sqlOpen = none → w.ping = none →
        (runProcess w).trace.filterMap usecaseTimeout = [n * 1000000000]) ∧
      timeoutContext 2 = 2000000000 := by
  have hgo : isGoInt n := by
    unfold isGoInt
    constructor <;> omega
  have heq : timeoutContext (w.getInt "context.timeout") = n * 1000000000 := by
    rw [hn]
    exact (timeoutContext_eq_iff n hgo).mpr ⟨hlo, hhi⟩
  have h := usecase_timeouts w
  rw [heq] at h
  exact ⟨h.1, h.2, by decide⟩

theorem timeout_is_n_seconds_witness :
    sampleWorld.getInt "context.timeout" = 2 ∧
      (runProcess sampleWorld).trace.filterMap usecaseTimeout = [2 * 1000000000] :=
  ⟨rfl, (timeout_is_n_seconds sampleWorld 2 rfl (by decide) (by decide)).2.1 rfl rfl rfl⟩

/-! ## The connection string -/

/-- The `Sprintf` call of `main` yields the five values between fixed texts. -/
theorem dsn_eq (H P U W N : String) :
    dsn H P U W N = "host=" ++ H ++ " port=" ++ P ++ " user=" ++ U ++ " password=" ++ W
      ++ " dbname=" ++ N ++ " sslmode=disable" := by
  apply String.ext
  simp [dsn, sprintf, dsnFormat, sprintfAux]

/-- C5: for all strings `H`, `P`, `U`, `W`, `N` under the five database keys,
every connection string passed to `sql.Open` is
`host=H port=P user=U password=W dbname=N sslmode=disable`, it is passed
(once) whenever the configuration was read, and it ends with
`sslmode=disable`. -/
theorem connection_string_format (w : World) (H P U W N : String)
    (hH : w.getString "database.host" = H) (hP : w.getString "database.port" = P)
    (hU : w.getString "database.user" = U) (hW : w.getString "database.pass" = W)
    (hN : w.getString "database.name" = N) :
    (∀ d ∈ (runProcess w).trace.filterMap openedDsn,
        d = "host=" ++ H ++ " port=" ++ P ++ " user=" ++ U ++ " password=" ++ W
          ++ " dbname=" ++ N ++ " sslmode=disable") ∧
      (w.readInConfig = none →
        (runProcess w).trace.filterMap openedDsn
          = ["host=" ++ H ++ " port=" ++ P ++ " user=" ++ U ++ " password=" ++ W
              ++ " dbname=" ++ N ++ " sslmode=disable"]) ∧
      "sslmode=disable".data <:+
        ("host=" ++ H ++ " port=" ++ P ++ " user=" ++ U ++ " password=" ++ W
          ++ " dbname=" ++ N ++ " sslmode=disable").data := by
  have hd : dsnOf w = "host=" ++ H ++ " port=" ++ P ++ " user=" ++ U ++ " password=" ++ W
      ++ " dbname=" ++ N ++ " sslmode=disable" := by
    rw [← dsn_eq, dsnOf, hH, hP, hU, hW, hN]
  refine ⟨?_, ?_, ?_⟩
  · rw [← hd]
    rcases runProcess_cases w with ⟨m, h⟩ | ⟨h1, m, h2⟩ | ⟨h1, h2, m, h3⟩ | ⟨h1, h2, h3⟩
    · rw [runProcess_readFail w m h]
      simp [openedDsn]
    · rw [runProcess_openFail w m h1 h2]
      cases hb : w.getBool "debug" <;> simp [initActions, openActions, hb, openedDsn]
    · rw [runProcess_pingFail w m h1 h2 h3]
      cases hb : w.getBool "debug" <;> simp [initActions, openActions, hb, openedDsn]
    · rw [runProcess_started w h1 h2 h3]
      cases hb : w.getBool "debug" <;>
        simp [initActions, openActions, wiringActions, hb, openedDsn]
  · intro h1
    rw [← hd]
    rcases runProcess_cases w with ⟨m, h⟩ | ⟨_, m, h2⟩ | ⟨_, h2, m, h3⟩ | ⟨_, h2, h3⟩
    · rw [h1] at h
      cases h
    · rw [runProcess_openFail w m h1 h2]
      cases hb : w.getBool "debug" <;> simp [initActions, openActions, hb, openedDsn]
    · rw [runProcess_pingFail w m h1 h2 h3]
      cases hb : w.getBool "debug" <;> simp [initActions, openActions, hb, openedDsn]
    · rw [runProcess_started w h1 h2 h3]
      cases hb : w.getBool "debug" <;>
        simp [initActions, openActions, wiringActions, hb, openedDsn]
  · refine ⟨("host=" ++ H ++ " port=" ++ P ++ " user=" ++ U ++ " password=" ++ W
      ++ " dbname=" ++ N).data ++ [' '], ?_⟩
    simp

theorem connection_string_format_witness :
    sampleWorld.getString "database.host" = "localhost" ∧
      sampleWorld.readInConfig = none ∧
      (runProcess sampleWorld).trace.filterMap openedDsn
        = ["host=" ++ "localhost" ++ " port=" ++ "5432" ++ " user=" ++ "user" ++ " password="
            ++ "secret" ++ " dbname=" ++ "article" ++ " sslmode=disable"] :=
  ⟨by decide, rfl,
    (connection_string_format sampleWorld "localhost" "5432" "user" "secret" "article"
      (by decide) (by decide) (by decide) (by decide) (by decide)).2.1 rfl⟩

/-! ## Configuration keys -/

/-- C6: every configuration read of `init` and `main` is one of the eight
recognized keys at its stated type; a run that reaches the listener start
reads exactly these eight, each once; hence each of the eight is read in
some run; and every address passed to the listener start is the value of
`server.address`, which is passed whenever the ping succeeds. -/
theorem config_reads_are_recognized_keys (w : World) :
    (∀ r ∈ configReads (runProcess w), r ∈ recognizedKeys) ∧
      (w.readInConfig = none → w.sqlOpen = none → w.ping = none →
        configReads (runProcess w) = recognizedKeys) ∧
      (∀ r ∈ recognizedKeys, ∃ v : World, r ∈ configReads (runProcess v)) ∧
      (∀ a ∈ (runProcess w).trace.filterMap startAddress, a = w.getString "server.address") ∧
      (w.readInConfig = none → w.sqlOpen = none → w.ping = none →
        (runProcess w).trace.filterMap startAddress = [w.getString "server.address"]) := by
  have hall : ∀ v : World, v.readInConfig = none → v.sqlOpen = none → v.ping = none →
      configReads (runProcess v) = recognizedKeys := by
    intro v h1 h2 h3
    rw [runProcess_started v h1 h2 h3]
    cases hb : v.getBool "debug" <;>
      simp [configReads, configRead, initActions, openActions, wiringActions, hb,
        recognizedKeys]
  refine ⟨?_, hall w, ?_, ?_, ?_⟩
  · rcases runProcess_cases w with ⟨m, h⟩ | ⟨h1, m, h2⟩ | ⟨h1, h2, m, h3⟩ | ⟨h1, h2, h3⟩
    · rw [runProcess_readFail w m h]
      simp [configReads, configRead]
    · rw [runProcess_openFail w m h1 h2]
      cases hb : w.getBool "debug" <;>
        simp [configReads, configRead, initActions, openActions, hb, recognizedKeys]
    · rw [runProcess_pingFail w m h1 h2 h3]
      cases hb : w.getBool "debug" <;>
        simp [configReads, configRead, initActions, openActions, hb, recognizedKeys]
    · rw [hall w h1 h2 h3]
      exact fun r hr => hr
  · intro r hr
    exact ⟨sampleWorld, by rw [hall sampleWorld rfl rfl rfl]; exact hr⟩
  · rcases runProcess_cases w with ⟨m, h⟩ | ⟨h1, m, h2⟩ | ⟨h1, h2, m, h3⟩ | ⟨h1, h2, h3⟩
    · rw [runProcess_readFail w m h]
      simp [startAddress]
    · rw [runProcess_openFail w m h1 h2]
      cases hb : w.getBool "debug" <;> simp [initActions, openActions, hb, startAddress]
    · rw [runProcess_pingFail w m h1 h2 h3]
      cases hb : w.getBool "debug" <;> simp [initActions, openActions, hb, startAddress]
    · rw [runProcess_started w h1 h2 h3]
      cases hb : w.getBool "debug" <;>
        simp [initActions, openActions, wiringActions, hb, startAddress]
  · intro h1 h2 h3
    rw [runProcess_started w h1 h2 h3]
    cases hb : w.getBool "debug" <;>
      simp [initActions, openActions, wiringActions, hb, startAddress]

theorem config_reads_are_recognized_keys_witness :
    sampleWorld.readInConfig = none ∧ sampleWorld.sqlOpen = none ∧ sampleWorld.ping = none ∧
      configReads (runProcess sampleWorld) = recognizedKeys ∧
      (runProcess sampleWorld).trace.filterMap startAddress
        = [sampleWorld.getString "server.address"] :=
  ⟨rfl, rfl, rfl, (config_reads_are_recognized_keys sampleWorld).2.1 rfl rfl rfl,
    (config_reads_are_recognized_keys sampleWorld).2.2.2.2 rfl rfl rfl⟩

/-! ## The CORS middleware -/

/-- C7: in every run that reaches the listener start on a server `e`, the
CORS middleware is registered exactly once, it is the middleware obtained
from `InitMiddleware`, it is registered on `e`, the only server created, on
which the article handler is registered too, and the registration comes
before the start; this holds for every configuration. -/
theorem cors_registered_once_before_start (w : World) (e : Handle) (address : String)
    (h : Action.echoStart e address ∈ (runProcess w).trace) :
    ∃ middle au,
      (runProcess w).trace.filter isEchoUse = [Action.echoUse e middle] ∧
      (runProcess w).trace.filter isEchoNew = [Action.echoNew e] ∧
      Action.initMiddleware middle ∈ (runProcess w).trace ∧
      Action.newArticleHandler e au ∈ (runProcess w).trace ∧
      ∃ pre mid post,
        (runProcess w).trace
          = pre ++ Action.echoUse e middle :: mid ++ Action.echoStart e address :: post := by
  rcases runProcess_cases w with ⟨m, h0⟩ | ⟨h1, m, h2⟩ | ⟨h1, h2, m, h3⟩ | ⟨h1, h2, h3⟩
  · rw [runProcess_readFail w m h0] at h
    simp at h
  · rw [runProcess_openFail w m h1 h2] at h
    cases hb : w.getBool "debug" <;> simp [initActions, openActions, hb] at h
  · rw [runProcess_pingFail w m h1 h2 h3] at h
    cases hb : w.getBool "debug" <;> simp [initActions, openActions, hb] at h
  · rw [runProcess_started w h1 h2 h3] at h ⊢
    have he : e = 2 ∧ address = w.getString "server.address" := by
      cases hb : w.getBool "debug" <;>
        simpa [initActions, openActions, wiringActions, hb] using h
    obtain ⟨rfl, rfl⟩ := he
    refine ⟨3, 6, ?_, ?_, ?_, ?_,
      initActions w ++ openActions w 1 ++
        [Action.dbPing 1, Action.deferClose 1, Action.echoNew 2, Action.initMiddleware 3],
      [Action.newPostgresAuthorRepository 1 4, Action.newPostgresArticleRepository 1 5,
        Action.getInt "context.timeout",
        Action.newArticleUsecase 5 4 (timeoutContext (w.getInt "context.timeout")) 6,
        Action.newArticleHandler 2 6, Action.getString "server.address"],
      [Action.logPrint (errorText w.startResult), Action.osExit 1], ?_⟩
    · cases hb : w.getBool "debug" <;>
        simp [initActions, openActions, wiringActions, hb, isEchoUse]
    · cases hb : w.getBool "debug" <;>
        simp [initActions, openActions, wiringActions, hb, isEchoNew]
    · simp [wiringActions]
    · simp [wiringActions]
    · simp [wiringActions]

theorem cors_registered_once_before_start_witness :
    Action.echoStart 2 ":9090" ∈ (runProcess sampleWorld).trace ∧
      ∃ middle au,
        (runProcess sampleWorld).trace.filter isEchoUse = [Action.echoUse 2 middle] ∧
        (runProcess sampleWorld).trace.filter isEchoNew = [Action.echoNew 2] ∧
        Action.initMiddleware middle ∈ (runProcess sampleWorld).trace ∧
        Action.newArticleHandler 2 au ∈ (runProcess sampleWorld).trace ∧
        ∃ pre mid post,
          (runProcess sampleWorld).trace
            = pre ++ Action.echoUse 2 middle :: mid ++ Action.echoStart 2 ":9090" :: post :=
  ⟨by decide, cors_registered_once_before_start sampleWorld 2 ":9090" (by decide)⟩

/-! ## Fields of the connection string -/

/-- C10: when none of the five values contains a space, splitting the
connection string of `main` on the space yields the six fields `host=H`,
`port=P`, `user=U`, `password=W`, `dbname=N`, `sslmode=disable` in order;
with the password `x sslmode=require` the split yields seven fields, the
values being interpolated without quoting or escaping. -/
theorem dsn_fields_split_on_space (H P U W N : String)
    (hH : ' ' ∉ H.data) (hP : ' ' ∉ P.data) (hU : ' ' ∉ U.data) (hW : ' ' ∉ W.data)
    (hN : ' ' ∉ N.data) :
    splitOnSpace (dsn H P U W N)
        = ["host=" ++ H, "port=" ++ P, "user=" ++ U, "password=" ++ W, "dbname=" ++ N,
            "sslmode=disable"] ∧
      splitOnSpace (dsn "h" "p" "u" "x sslmode=require" "n")
        = ["host=h", "port=p", "user=u", "password=x", "sslmode=require", "dbname=n",
            "sslmode=disable"] ∧
      6 < (splitOnSpace (dsn "h" "p" "u" "x sslmode=require" "n")).length := by
  have hdata : (dsn H P U W N).data =
      [' '].intercalate [("host=" ++ H).data, ("port=" ++ P).data, ("user=" ++ U).data,
        ("password=" ++ W).data, ("dbname=" ++ N).data, "sslmode=disable".data] := by
    simp [dsn, sprintf, dsnFormat, sprintfAux, List.intercalate]
  refine ⟨?_, by decide, by decide⟩
  unfold splitOnSpace
  rw [hdata, List.splitOn_intercalate]
  · rfl
  · intro l hl
    simp only [List.mem_cons, List.mem_singleton, List.not_mem_nil, or_false] at hl
    rcases hl with rfl | rfl | rfl | rfl | rfl | rfl <;> simp [*]
  · simp

theorem dsn_fields_split_on_space_witness :
    ' ' ∉ "localhost".data ∧
      splitOnSpace (dsn "localhost" "5432" "user" "secret" "article")
        = ["host=" ++ "localhost", "port=" ++ "5432", "user=" ++ "user",
            "password=" ++ "secret", "dbname=" ++ "article", "sslmode=disable"] :=
  ⟨by decide, (dsn_fields_split_on_space "localhost" "5432" "user" "secret" "article"
    (by decide) (by decide) (by decide) (by decide) (by decide)).1⟩

end TestServer
